import Mathlib

/-!
# Verification of the mcp-waifu-chat dialog store, parser and provider client

Shallow embedding of the Python sources `mcp_waifu_chat/{db,utils,ai,api}.py`:

* the SQLite `dialogs` table becomes a list of rows (`DB`), each SQL
  statement a pure function on it;
* `utils.dialog_to_json` is embedded with a character-level backtracking
  matcher implementing Python's `re.findall` for the fixed pattern
  `\s*([^:]+)\s+said:\s*"([^"]*)"` (leftmost scanning, greedy quantifiers
  with backtracking);
* `ai.generate_response` is embedded with the external world (environment
  variables, dotfiles, HTTP / SDK outcomes) as an explicit oracle value and
  the module-level credential caches as explicit state; the list of external
  provider calls performed is returned as an explicit trace;
* `api.chat` composes the above.

Python `str.strip()` and the regex class `\s` are modelled on the ASCII
whitespace characters; all inputs of interest are ASCII.
-/

/-- ASCII whitespace, as matched by Python's `str.strip()` and `\s`. -/
def isSpace (c : Char) : Bool :=
  c = ' ' || c = '\t' || c = '\n' || c = '\r' || c = '\x0b' || c = '\x0c'

/-- Python `str.strip()` on a character list. -/
def pyStripL (cs : List Char) : List Char :=
  ((cs.dropWhile isSpace).reverse.dropWhile isSpace).reverse

/-- Python `str.strip()`. -/
def pyStrip (s : String) : String :=
  ⟨pyStripL s.data⟩

/-- Python `str.lower()` (ASCII fragment, as used for provider names). -/
def pyLower (s : String) : String :=
  ⟨s.data.map Char.toLower⟩

/-! ## The regex matcher for `\s*([^:]+)\s+said:\s*"([^"]*)"`

`re.findall` scans left to right, attempting a match at each position; a
successful match contributes its group tuple and scanning resumes at the
match end.  Inside one match attempt the quantifiers are greedy with
backtracking.  After the capture group `([^:]+)` the remainder
`\s+said:\s*"([^"]*)"` is deterministic (each quantifier is followed by a
character it can never match), so only the leading `\s*` and the group need
explicit backtracking, longest-first as in CPython.
-/

/-- Match a literal character sequence, returning the rest. -/
def matchLit : List Char → List Char → Option (List Char)
  | [], rest => some rest
  | _, [] => none
  | l :: ls, c :: cs => if c = l then matchLit ls cs else none

/-- Match `\s*"([^"]*)"`: the group and the rest of the input. -/
def matchTail (cs : List Char) : Option (List Char × List Char) :=
  match cs.dropWhile isSpace with
  | '"' :: cs2 =>
    match (cs2.takeWhile (· ≠ '"'), cs2.dropWhile (· ≠ '"')) with
    | (msg, '"' :: rest) => some (msg, rest)
    | _ => none
  | _ => none

/-- Match `\s+said:` then the tail, starting right after the name group. -/
def matchAfterGroup (cs : List Char) : Option (List Char × List Char) :=
  match cs.takeWhile isSpace with
  | [] => none
  | _ :: _ =>
    match matchLit ['s', 'a', 'i', 'd', ':'] (cs.dropWhile isSpace) with
    | some cs2 => matchTail cs2
    | none => none

/-- Try the group `([^:]+)` at sizes `k, k-1, ..., 1` (greedy, longest
first), returning `(name, message, rest)` on the first success. -/
def tryGroupK : Nat → List Char → Option (List Char × List Char × List Char)
  | 0, _ => none
  | k + 1, cs =>
    match matchAfterGroup (cs.drop (k + 1)) with
    | some (msg, rest) => some (cs.take (k + 1), msg, rest)
    | none => tryGroupK k cs

/-- Try the group at the current position: its longest candidate is the
maximal run of non-`:` characters. -/
def tryGroup (cs : List Char) : Option (List Char × List Char × List Char) :=
  tryGroupK (cs.takeWhile (· ≠ ':')).length cs

/-- Backtrack the leading `\s*` from `w` whitespace characters down to 0. -/
def tryFromWs : Nat → List Char → Option (List Char × List Char × List Char)
  | 0, cs => tryGroup cs
  | w + 1, cs =>
    match tryGroup (cs.drop (w + 1)) with
    | some r => some r
    | none => tryFromWs w cs

/-- Attempt the whole pattern anchored at the head of `cs`. -/
def matchAt (cs : List Char) : Option (List Char × List Char × List Char) :=
  tryFromWs (cs.takeWhile isSpace).length cs

/-- `re.findall` scanning loop; `fuel` bounds the number of positions
visited and is initially the input length, which suffices because every
step either consumes a (nonempty) match or advances one character. -/
def findallAux : Nat → List Char → List (List Char × List Char)
  | 0, _ => []
  | _ + 1, [] => []
  | n + 1, cs@(_ :: cs') =>
    match matchAt cs with
    | some (name, msg, rest) => (name, msg) :: findallAux n rest
    | none => findallAux n cs'

/-- All `(name, message)` group pairs of the pattern in `s`, in order. -/
def dialogMatches (s : String) : List (List Char × List Char) :=
  findallAux s.data.length s.data

/-! ## `utils.dialog_to_json` -/

/-- One element of the list returned by `dialog_to_json`:
`{"index": _, "name": _, "message": _}`. -/
structure DialogEntry where
  index : Nat
  name : String
  message : String
deriving DecidableEq, Repr

/-- The `for index, (name, message) in enumerate(matches)` loop of
`dialog_to_json`, building entries with consecutive indices from `k`. -/
def withIndices : Nat → List (List Char × List Char) → List DialogEntry
  | _, [] => []
  | k, (n, m) :: rest => ⟨k, ⟨pyStripL n⟩, ⟨pyStripL m⟩⟩ :: withIndices (k + 1) rest

/-- `utils.dialog_to_json`: empty input gives `[]`, otherwise the enumerated,
stripped group pairs of the regex. -/
def dialog_to_json (dialog : String) : List DialogEntry :=
  if dialog = "" then []
  else withIndices 0 (dialogMatches dialog)

/-! ## The dialog store (`db.py`)

One `dialogs` row.  The store is the list of rows in rowid (insertion)
order; the `PRIMARY KEY (current_user, user_id)` constraint shows up as the
duplicate check of `INSERT`.  Each function mirrors the single SQL statement
of the corresponding `db.py` function; `datetime.now()` / `time.time()` are
passed in as explicit arguments `dt` / `ts`.
-/

structure DialogRow where
  current_user : String
  user_id : String
  dialog : String
  last_modified_datetime : String
  last_modified_timestamp : Int
deriving DecidableEq, Repr

/-- The `dialogs` table, in insertion (rowid) order. -/
abbrev DB : Type := List DialogRow

/-- Row matches the `WHERE current_user=? AND user_id=?` clause. -/
def keyMatch (cu uid : String) (r : DialogRow) : Bool :=
  r.current_user = cu && r.user_id = uid

/-- `db.get_old_dialog`: `SELECT dialog ... fetchone`, `""` when absent. -/
def get_old_dialog (cu uid : String) (db : DB) : String :=
  match db.find? (keyMatch cu uid) with
  | some r => r.dialog
  | none => ""

/-- `db.update_user_dialog`: `UPDATE dialogs SET dialog=?, ... WHERE ...`;
updates every matching row (none, when the pair is absent). -/
def update_user_dialog (cu uid dialog dt : String) (ts : Int) (db : DB) : DB :=
  db.map fun r =>
    if keyMatch cu uid r then
      { r with dialog := dialog, last_modified_datetime := dt,
               last_modified_timestamp := ts }
    else r

/-- `db.is_user_id_in_db`: `SELECT 1 ... fetchone is not None`. -/
def is_user_id_in_db (cu uid : String) (db : DB) : Bool :=
  db.any (keyMatch cu uid)

/-- The error raised by SQLite and re-raised by `get_db_connection` after
rolling the transaction back. -/
inductive DbError where
  | duplicateKey
deriving DecidableEq, Repr

/-- `db.add_user_to_db`: `INSERT INTO dialogs ... VALUES (?, ?, '', ?, ?)`.
A primary-key conflict raises `sqlite3.IntegrityError`; `get_db_connection`
rolls back (the returned store is the unchanged input) and re-raises. -/
def add_user_to_db (cu uid dt : String) (ts : Int) (db : DB) :
    DB × Option DbError :=
  if db.any (keyMatch cu uid) then (db, some .duplicateKey)
  else (db ++ [⟨cu, uid, "", dt, ts⟩], none)

/-- `ORDER BY last_modified_timestamp DESC`, newest first.  SQLite leaves
the order of ties unspecified; the model fixes a stable descending sort. -/
def tsGe (a b : DialogRow) : Prop :=
  b.last_modified_timestamp ≤ a.last_modified_timestamp

instance : DecidableRel tsGe := fun a b =>
  (inferInstance : Decidable (b.last_modified_timestamp ≤ a.last_modified_timestamp))

instance : IsTotal DialogRow tsGe :=
  ⟨fun a b => (le_total b.last_modified_timestamp a.last_modified_timestamp)⟩

instance : IsTrans DialogRow tsGe :=
  ⟨fun _ _ _ h1 h2 => le_trans h2 h1⟩

/-- `db.get_all_users_paged`: `SELECT user_id ... WHERE current_user=?
ORDER BY last_modified_timestamp DESC LIMIT ?, 100` with offset
`page * 100`. -/
def get_all_users_paged (cu : String) (page : Nat) (db : DB) : List String :=
  ((((db.filter fun r => r.current_user = cu).insertionSort tsGe).map
      (·.user_id)).drop (page * 100)).take 100

/-! ## The provider client (`ai.py`)

External inputs — environment variables, dotfile contents, and the outcome
of the one HTTP POST / SDK generation call — are gathered in `AiWorld`.
The module-level credential caches (`_OPENROUTER_API_KEY`,
`_GEMINI_API_KEY`, `_CLIENT`) form the explicit state `AiCache`.
Each function returns its Python value together with the updated cache;
`generate_response` additionally returns the list of external provider
calls it performed.
-/

/-- Python truthiness of an optional string (`None` and `""` are falsy). -/
def truthy : Option String → Bool
  | none => false
  | some s => s ≠ ""

/-- The parsed JSON body of the OpenRouter response: either `.json()`
raises, or it yields a `choices` array whose entries are modelled by their
`message.content` field (`none` when `message`/`content` is absent). -/
inductive JsonBody where
  | malformed
  | parsed (choices : List (Option String))
deriving DecidableEq, Repr

/-- Outcome of `requests.post` to OpenRouter: a raised transport error, or
a response with a status code and body. -/
inductive HttpResult where
  | transportError
  | response (status : Nat) (body : JsonBody)
deriving DecidableEq, Repr

/-- Outcome of `client.models.generate_content`: raises, or a response with
a `text` attribute (`none` when absent/`None`) and `candidates`, each
carrying `content.parts` (`none` when `content` is absent or has no
`parts`), each part carrying its `text` (`none` when absent/`None`). -/
inductive GenResult where
  | raises
  | response (text : Option String) (candidates : List (Option (List (Option String))))
deriving DecidableEq, Repr

/-- External world seen by one `generate_response` call. -/
structure AiWorld where
  orEnvKey : Option String
  orFileKey : Option String
  orHttp : HttpResult
  gemEnvKey : Option String
  googleEnvKey : Option String
  gemFileKey : Option String
  gemClientFails : Bool
  gemGen : GenResult
deriving DecidableEq, Repr

/-- Module-level caches of `ai.py` (`_OPENROUTER_API_KEY`,
`_GEMINI_API_KEY`, presence of `_CLIENT`). -/
structure AiCache where
  orKey : Option String
  gemKey : Option String
  client : Bool
deriving DecidableEq, Repr

/-- All caches empty, the state at module import. -/
def AiCache.initial : AiCache := ⟨none, none, false⟩

/-- The two external providers. -/
inductive Provider where
  | openrouter
  | gemini
deriving DecidableEq, Repr

/-- `ai._read_single_line_file`, applied to the file content (`none` when
the file is absent or unreadable): the stripped content if non-empty. -/
def read_single_line_file (content : Option String) : Option String :=
  match content with
  | none => none
  | some s => if pyStrip s = "" then none else some (pyStrip s)

/-- `ai._resolve_openrouter_api_key`: cached value, else the stripped
`OPENROUTER_API_KEY` environment variable if non-blank, else the
`~/.api-openrouter` dotfile; successful resolutions are cached. -/
def resolve_openrouter_api_key (w : AiWorld) (c : AiCache) :
    Option String × AiCache :=
  match c.orKey with
  | some k => (some k, c)
  | none =>
    let env := w.orEnvKey.getD ""
    if env ≠ "" ∧ pyStrip env ≠ "" then
      (some (pyStrip env), { c with orKey := some (pyStrip env) })
    else
      match read_single_line_file w.orFileKey with
      | some k => (some k, { c with orKey := some k })
      | none => (none, c)

/-- The Python expression
`os.getenv("GEMINI_API_KEY") or os.getenv("GOOGLE_API_KEY")`: the first
variable when truthy (present and non-empty), else the second. -/
def gemEnvCombined (w : AiWorld) : String :=
  if (w.gemEnvKey.getD "") ≠ "" then w.gemEnvKey.getD ""
  else w.googleEnvKey.getD ""

/-- `ai._get_gemini_api_key`: cached value, else the stripped value of
`GEMINI_API_KEY or GOOGLE_API_KEY` if non-blank, else `~/.api-gemini`. -/
def get_gemini_api_key (w : AiWorld) (c : AiCache) : Option String × AiCache :=
  match c.gemKey with
  | some k => (some k, c)
  | none =>
    let env := gemEnvCombined w
    if env ≠ "" ∧ pyStrip env ≠ "" then
      (some (pyStrip env), { c with gemKey := some (pyStrip env) })
    else
      match read_single_line_file w.gemFileKey with
      | some k => (some k, { c with gemKey := some k })
      | none => (none, c)

/-- `ai._get_gemini_client`: the cached client, else a client built from
the resolved key (`false` when the key is unavailable or the constructor
raises; only the presence of the client object is modelled). -/
def get_gemini_client (w : AiWorld) (c : AiCache) : Bool × AiCache :=
  if c.client then (true, c)
  else
    match get_gemini_api_key w c with
    | (none, c1) => (false, c1)
    | (some k, c1) =>
      if k = "" then (false, c1)
      else if w.gemClientFails then (false, c1)
      else (true, { c1 with client := true })

/-- `ai._openrouter_chat`: resolve the key (no POST without one), issue the
POST, and return the stripped `choices[0].message.content` when the status
is 200, the body parses, and the content is non-blank; `none` otherwise.
The boolean records whether the POST was attempted. -/
def openrouter_chat (w : AiWorld) (c : AiCache) :
    Option String × AiCache × Bool :=
  match resolve_openrouter_api_key w c with
  | (none, c1) => (none, c1, false)
  | (some k, c1) =>
    if k = "" then (none, c1, false)
    else
      match w.orHttp with
      | .transportError => (none, c1, true)
      | .response status body =>
        if status ≠ 200 then (none, c1, true)
        else
          match body with
          | .malformed => (none, c1, true)
          | .parsed [] => (none, c1, true)
          | .parsed (c0 :: _) =>
            let content := pyStrip (c0.getD "")
            if content = "" then (none, c1, true) else (some content, c1, true)

/-- The fields of `config.Config` that `generate_response` and `chat`
read. -/
structure Config where
  default_response : String
  default_provider : String
  gemini_model_name : String
  openrouter_model_name : String
deriving DecidableEq, Repr

/-- `(config.default_provider or "openrouter").lower().strip()`. -/
def normalizedProvider (cfg : Config) : String :=
  pyStrip (pyLower (if cfg.default_provider = "" then "openrouter"
                    else cfg.default_provider))

/-- The provider branch `generate_response` takes: the `openrouter` branch
on the exact normalized name, the Gemini branch on everything else. -/
def selectedProvider (cfg : Config) : Provider :=
  if normalizedProvider cfg = "openrouter" then .openrouter else .gemini

/-- First truthy `p.text` among the parts of one candidate. -/
def firstPartText : List (Option String) → Option String
  | [] => none
  | p :: rest => if truthy p then p else firstPartText rest

/-- The candidate scan of the Gemini branch: first truthy part text. -/
def scanCandidates : List (Option (List (Option String))) → Option String
  | [] => none
  | none :: rest => scanCandidates rest
  | some parts :: rest =>
    match firstPartText parts with
    | some t => some t
    | none => scanCandidates rest

/-- `ai.generate_response`: the reply text, the updated caches, and the
trace of external provider calls performed (the OpenRouter POST / the
Gemini `generate_content` call). -/
def generate_response (_prompt : String) (cfg : Config) (w : AiWorld)
    (c : AiCache) : String × AiCache × List Provider :=
  if normalizedProvider cfg = "openrouter" then
    match openrouter_chat w c with
    | (some t, c1, posted) =>
      (t, c1, if posted then [.openrouter] else [])
    | (none, c1, posted) =>
      (cfg.default_response, c1, if posted then [.openrouter] else [])
  else
    match get_gemini_client w c with
    | (false, c1) => (cfg.default_response, c1, [])
    | (true, c1) =>
      match w.gemGen with
      | .raises => (cfg.default_response, c1, [.gemini])
      | .response text candidates =>
        if truthy text then (text.getD "", c1, [.gemini])
        else
          match scanCandidates candidates with
          | some t => (t, c1, [.gemini])
          | none => (cfg.default_response, c1, [.gemini])

/-! ## The request handler (`api.chat`) -/

/-- `api.chat`: read the old dialog, build the prompt
`f'{old} User said: "{message}" Waifu said: "'`, call the provider, store
`f'{prompt}{response}"'`, and return `(user_id, response)` together with
the updated store and caches. -/
def chat (message user_id current_user : String) (cfg : Config)
    (w : AiWorld) (c : AiCache) (dt : String) (ts : Int) (db : DB) :
    (String × String) × DB × AiCache :=
  let old := get_old_dialog current_user user_id db
  let prompt := old ++ " User said: \"" ++ message ++ "\" Waifu said: \""
  let (resp, c1, _calls) := generate_response prompt cfg w c
  let complete := prompt ++ resp ++ "\""
  let db1 := update_user_dialog current_user user_id complete dt ts db
  ((user_id, resp), db1, c1)

/-! ## Store lemmas -/

theorem keyMatch_update (cu uid x dt : String) (ts : Int) (r : DialogRow) :
    keyMatch cu uid { r with dialog := x, last_modified_datetime := dt,
                             last_modified_timestamp := ts } =
      keyMatch cu uid r := rfl

/-- `UPDATE` touches no row when the pair is absent. -/
theorem update_user_dialog_of_absent (cu uid x dt : String) (ts : Int)
    (db : DB) (h : is_user_id_in_db cu uid db = false) :
    update_user_dialog cu uid x dt ts db = db := by
  induction db with
  | nil => rfl
  | cons r rest ih =>
    simp only [is_user_id_in_db, List.any_cons, Bool.or_eq_false_iff] at h
    simp only [update_user_dialog, List.map_cons, h.1, Bool.false_eq_true,
      if_false, List.cons.injEq, true_and]
    exact ih h.2

/-- A present pair reads back exactly the dialog just written. -/
theorem get_old_dialog_update (cu uid x dt : String) (ts : Int)
    (db : DB) (h : is_user_id_in_db cu uid db = true) :
    get_old_dialog cu uid (update_user_dialog cu uid x dt ts db) = x := by
  induction db with
  | nil => simp [is_user_id_in_db] at h
  | cons r rest ih =>
    by_cases hk : keyMatch cu uid r = true
    · have hk' : keyMatch cu uid
          { r with dialog := x, last_modified_datetime := dt,
                   last_modified_timestamp := ts } = true := hk
      simp [update_user_dialog, get_old_dialog, List.find?_cons, hk, hk']
    · have hrest : is_user_id_in_db cu uid rest = true := by
        simp only [is_user_id_in_db, List.any_cons,
          Bool.not_eq_true] at h ⊢
        rcases Bool.or_eq_true_iff.mp h with h1 | h1
        · exact absurd h1 hk
        · exact h1
      have hne : keyMatch cu uid r = false := Bool.not_eq_true _ |>.mp hk
      simpa [update_user_dialog, get_old_dialog, List.find?_cons, hne]
        using ih hrest

/-- An absent pair reads as the empty string. -/
theorem get_old_dialog_of_absent (cu uid : String) (db : DB)
    (h : is_user_id_in_db cu uid db = false) :
    get_old_dialog cu uid db = "" := by
  induction db with
  | nil => rfl
  | cons r rest ih =>
    simp only [is_user_id_in_db, List.any_cons, Bool.or_eq_false_iff] at h
    simp only [get_old_dialog, List.find?_cons, h.1, Bool.false_eq_true,
      if_false] at *
    exact ih h.2

/-! ## Claims C3, C4, C5 -/

/-- Claim C3, as stated, is false: on a store without a record for the
pair, `write_transcript` is a no-op, so the subsequent read returns `""`,
not the written string. -/
theorem c3_counterexample :
    get_old_dialog "alice" "bob"
      (update_user_dialog "alice" "bob" "X" "2024-01-01 00:00:00" 0 []) ≠
      "X" := by decide

/-- Claim C3 (amended): for every owner, user and string `X`, if a record
for `(owner, user)` exists in the store, `write_transcript(owner, user, X)`
followed by `read_transcript(owner, user)` returns exactly `X`. -/
theorem c3_write_read_roundtrip (cu uid x dt : String) (ts : Int) (db : DB)
    (h : is_user_id_in_db cu uid db = true) :
    get_old_dialog cu uid (update_user_dialog cu uid x dt ts db) = x :=
  get_old_dialog_update cu uid x dt ts db h

theorem c3_write_read_roundtrip_witness :
    get_old_dialog "alice" "bob"
      (update_user_dialog "alice" "bob" "X" "2024-01-01 00:00:00" 7
        [⟨"alice", "bob", "old text", "2023-12-31 23:59:59", 3⟩]) = "X" :=
  c3_write_read_roundtrip "alice" "bob" "X" "2024-01-01 00:00:00" 7
    [⟨"alice", "bob", "old text", "2023-12-31 23:59:59", 3⟩] (by decide)

/-- Claim C4: when `(owner, user)` has no record, `write_transcript` leaves
the whole store unchanged — no record is created, no error is raised (the
operation is total and returns a store), and the pair still does not
exist afterwards. -/
theorem c4_write_absent_noop (cu uid x dt : String) (ts : Int) (db : DB)
    (h : is_user_id_in_db cu uid db = false) :
    update_user_dialog cu uid x dt ts db = db ∧
    is_user_id_in_db cu uid (update_user_dialog cu uid x dt ts db) = false := by
  have hdb := update_user_dialog_of_absent cu uid x dt ts db h
  exact ⟨hdb, by rw [hdb]; exact h⟩

theorem c4_write_absent_noop_witness :
    update_user_dialog "alice" "bob" "X" "2024-01-01 00:00:00" 7
        [⟨"alice", "carol", "t", "2023-12-31 23:59:59", 3⟩] =
      [⟨"alice", "carol", "t", "2023-12-31 23:59:59", 3⟩] ∧
    is_user_id_in_db "alice" "bob"
      (update_user_dialog "alice" "bob" "X" "2024-01-01 00:00:00" 7
        [⟨"alice", "carol", "t", "2023-12-31 23:59:59", 3⟩]) = false :=
  c4_write_absent_noop "alice" "bob" "X" "2024-01-01 00:00:00" 7
    [⟨"alice", "carol", "t", "2023-12-31 23:59:59", 3⟩] (by decide)

/-- Claim C5: `create(owner, user)` appends a record with an empty
transcript when the pair is absent; when the pair already exists it fails
with the duplicate-key error propagated from the primary-key constraint
and the store is unchanged (the transaction is rolled back). -/
theorem c5_create (cu uid dt : String) (ts : Int) (db : DB) :
    (is_user_id_in_db cu uid db = false →
      add_user_to_db cu uid dt ts db = (db ++ [⟨cu, uid, "", dt, ts⟩], none)) ∧
    (is_user_id_in_db cu uid db = true →
      add_user_to_db cu uid dt ts db = (db, some .duplicateKey)) := by
  constructor
  · intro h
    have h' : db.any (keyMatch cu uid) = false := h
    simp [add_user_to_db, h']
  · intro h
    have h' : db.any (keyMatch cu uid) = true := h
    simp [add_user_to_db, h']

theorem c5_create_witness :
    add_user_to_db "alice" "bob" "2024-01-01 00:00:00" 7 [] =
      ([⟨"alice", "bob", "", "2024-01-01 00:00:00", 7⟩], none) ∧
    add_user_to_db "alice" "bob" "2024-01-02 00:00:00" 8
        [⟨"alice", "bob", "", "2024-01-01 00:00:00", 7⟩] =
      ([⟨"alice", "bob", "", "2024-01-01 00:00:00", 7⟩], some .duplicateKey) :=
  ⟨(c5_create "alice" "bob" "2024-01-01 00:00:00" 7 []).1 (by decide),
   (c5_create "alice" "bob" "2024-01-02 00:00:00" 8
      [⟨"alice", "bob", "", "2024-01-01 00:00:00", 7⟩]).2 (by decide)⟩

/-! ## Claim C6 -/

/-- Claim C6: `list_page(owner, p)` returns at most 100 user ids; it is the
window that skips the first `p * 100` entries of the owner's records sorted
most-recently-modified first (the sort is a permutation of the owner's
records and is descending in the last-modified timestamp), and its length
is `min 100 (n - p * 100)` for `n` owner records — so 150 records give a
page 0 of 100 and a page 1 of 50. -/
theorem c6_list_page (cu : String) (p : Nat) (db : DB) :
    (get_all_users_paged cu p db).length ≤ 100 ∧
    (get_all_users_paged cu p db).length =
      min 100 ((db.filter fun r => r.current_user = cu).length - p * 100) ∧
    ((db.filter fun r => r.current_user = cu).insertionSort tsGe).Pairwise tsGe ∧
    ((db.filter fun r => r.current_user = cu).insertionSort tsGe).Perm
      (db.filter fun r => r.current_user = cu) ∧
    get_all_users_paged cu p db =
      ((((db.filter fun r => r.current_user = cu).insertionSort tsGe).map
          (·.user_id)).drop (p * 100)).take 100 := by
  have hperm : ((db.filter fun r => r.current_user = cu).insertionSort tsGe).Perm
      (db.filter fun r => r.current_user = cu) :=
    List.perm_insertionSort tsGe _
  have hlen : (get_all_users_paged cu p db).length =
      min 100 ((db.filter fun r => r.current_user = cu).length - p * 100) := by
    simp [get_all_users_paged, List.length_take, List.length_drop,
      List.length_map, hperm.length_eq]
  refine ⟨?_, hlen, ?_, hperm, rfl⟩
  · rw [hlen]; exact Nat.min_le_left _ _
  · exact List.sorted_insertionSort tsGe _

/-! ## Claims C7 and C10 -/

/-- Claim C7: `dialog_to_json` on `'User said: "hi" Waifu said: "hello"'`
yields exactly the two indexed entries, and on `""` yields `[]`. -/
theorem c7_dialog_to_json_examples :
    dialog_to_json "User said: \"hi\" Waifu said: \"hello\"" =
      [⟨0, "User", "hi"⟩, ⟨1, "Waifu", "hello"⟩] ∧
    dialog_to_json "" = [] :=
  ⟨by decide, rfl⟩

/-- Entry `i` of the enumeration loop carries index `k + i` and the
stripped groups of match `i`. -/
theorem withIndices_getElem? (l : List (List Char × List Char)) (k i : Nat) :
    (withIndices k l)[i]? = (l[i]?).map
      (fun nm => ⟨k + i, ⟨pyStripL nm.1⟩, ⟨pyStripL nm.2⟩⟩) := by
  induction l generalizing k i with
  | nil => simp [withIndices]
  | cons nm rest ih =>
    obtain ⟨n, m⟩ := nm
    cases i with
    | zero =>
      simp only [withIndices, List.getElem?_cons_zero, Option.map_some',
        Nat.add_zero]
    | succ j =>
      simp only [withIndices, List.getElem?_cons_succ]
      rw [ih (k + 1) j]
      simp only [Nat.add_succ, Nat.succ_add]

/-- Claim C10: `dialog_to_json` is total (it is a function into lists), and
entry `i` of its output is exactly `{index := i, name, message}` where the
name and message are the whitespace-stripped groups of the `i`-th regex
match, in order of appearance. -/
theorem c10_dialog_to_json_shape (s : String) (i : Nat) :
    (dialog_to_json s)[i]? = ((if s = "" then [] else dialogMatches s)[i]?).map
      (fun nm => ⟨i, ⟨pyStripL nm.1⟩, ⟨pyStripL nm.2⟩⟩) := by
  by_cases hs : s = ""
  · simp [dialog_to_json, hs]
  · simpa [dialog_to_json, hs] using withIndices_getElem? (dialogMatches s) 0 i

/-! ## Provider failure predicates and claims C1, C2 -/

/-- Every way the OpenRouter path can fail: unresolvable credential,
transport exception, non-200 status, malformed body, empty `choices`, or a
blank/missing `choices[0].message.content`. -/
def orFailure (w : AiWorld) (c : AiCache) : Prop :=
  (resolve_openrouter_api_key w c).1 = none ∨
  w.orHttp = .transportError ∨
  (∃ s b, w.orHttp = .response s b ∧ s ≠ 200) ∨
  (∃ s, w.orHttp = .response s .malformed) ∨
  (∃ s, w.orHttp = .response s (.parsed [])) ∨
  (∃ s c0 rest, w.orHttp = .response s (.parsed (c0 :: rest)) ∧
    pyStrip (c0.getD "") = "")

/-- Every way the Gemini path can fail: no usable client (unresolvable
credential or a raising constructor), a raising generation call, or a
response without any truthy text. -/
def gemFailure (w : AiWorld) (c : AiCache) : Prop :=
  (get_gemini_client w c).1 = false ∨
  w.gemGen = .raises ∨
  (∃ text cands, w.gemGen = .response text cands ∧ truthy text = false ∧
    scanCandidates cands = none)

/-- Failure of the provider branch that `generate_response` takes. -/
def providerFailure : Provider → AiWorld → AiCache → Prop
  | .openrouter, w, c => orFailure w c
  | .gemini, w, c => gemFailure w c

/-- Under any OpenRouter failure, `_openrouter_chat` yields `None`. -/
theorem openrouter_chat_none_of_failure (w : AiWorld) (c : AiCache)
    (h : orFailure w c) : (openrouter_chat w c).1 = none := by
  rcases hre : resolve_openrouter_api_key w c with ⟨o, c1⟩
  cases o with
  | none => simp [openrouter_chat, hre]
  | some k =>
    by_cases hk : k = ""
    · simp [openrouter_chat, hre, hk]
    · rcases hw : w.orHttp with _ | ⟨s, b⟩
      · simp [openrouter_chat, hre, hk, hw]
      · by_cases hs : s = 200
        · subst hs
          rcases b with _ | (_ | ⟨c0, rest⟩)
          · simp [openrouter_chat, hre, hk, hw]
          · simp [openrouter_chat, hre, hk, hw]
          · have hc : pyStrip (c0.getD "") = "" := by
              rcases h with hcred | htr | ⟨s', b', hw', hs'⟩ | ⟨s', hw'⟩ |
                ⟨s', hw'⟩ | ⟨s', c0', rest', hw', hc'⟩
              · rw [hre] at hcred; simp at hcred
              · rw [hw] at htr; simp at htr
              · rw [hw] at hw'
                obtain ⟨h1, -⟩ := HttpResult.response.inj hw'
                exact absurd h1.symm hs'
              · rw [hw] at hw'
                obtain ⟨-, h2⟩ := HttpResult.response.inj hw'
                simp at h2
              · rw [hw] at hw'
                obtain ⟨-, h2⟩ := HttpResult.response.inj hw'
                simp at h2
              · rw [hw] at hw'
                obtain ⟨-, h2⟩ := HttpResult.response.inj hw'
                obtain ⟨h3, -⟩ := List.cons.inj (JsonBody.parsed.inj h2)
                rw [h3]; exact hc'
            simp [openrouter_chat, hre, hk, hw, hc]
        · simp [openrouter_chat, hre, hk, hw, hs]

/-- Under any Gemini failure, the Gemini branch returns the default. -/
theorem gemini_default_of_failure (prompt : String) (cfg : Config)
    (w : AiWorld) (c : AiCache) (hng : ¬ normalizedProvider cfg = "openrouter")
    (h : gemFailure w c) :
    (generate_response prompt cfg w c).1 = cfg.default_response := by
  rcases hcl : get_gemini_client w c with ⟨av, c1⟩
  cases av with
  | false => simp [generate_response, hng, hcl]
  | true =>
    rcases h with hcl' | hr | ⟨text, cands, hgen, htx, hscan⟩
    · rw [hcl] at hcl'; simp at hcl'
    · simp [generate_response, hng, hcl, hr]
    · simp [generate_response, hng, hcl, hgen, htx, hscan]

/-- Any failure of the selected provider collapses to the configured
default response. -/
theorem generate_response_default_of_failure (prompt : String) (cfg : Config)
    (w : AiWorld) (c : AiCache)
    (h : providerFailure (selectedProvider cfg) w c) :
    (generate_response prompt cfg w c).1 = cfg.default_response := by
  by_cases hp : normalizedProvider cfg = "openrouter"
  · have h' : orFailure w c := by
      rw [selectedProvider, if_pos hp] at h; exact h
    have hn := openrouter_chat_none_of_failure w c h'
    rcases hoc : openrouter_chat w c with ⟨o, c1, posted⟩
    rw [hoc] at hn
    simp only at hn
    subst hn
    simp [generate_response, hp, hoc]
  · have h' : gemFailure w c := by
      rw [selectedProvider, if_neg hp] at h; exact h
    exact gemini_default_of_failure prompt cfg w c hp h'

/-- The provider-call trace of one `generate_response` call is empty or the
single selected provider. -/
theorem generate_response_trace (prompt : String) (cfg : Config)
    (w : AiWorld) (c : AiCache) :
    (generate_response prompt cfg w c).2.2 = [] ∨
    (generate_response prompt cfg w c).2.2 = [selectedProvider cfg] := by
  by_cases hp : normalizedProvider cfg = "openrouter"
  · rcases hoc : openrouter_chat w c with ⟨o, c1, posted⟩
    cases o <;> cases posted <;>
      simp [generate_response, selectedProvider, hp, hoc]
  · rcases hcl : get_gemini_client w c with ⟨av, c1⟩
    cases av with
    | false => simp [generate_response, hp, hcl]
    | true =>
      rcases hg : w.gemGen with _ | ⟨text, cands⟩
      · simp [generate_response, selectedProvider, hp, hcl, hg]
      · by_cases ht : truthy text = true
        · simp [generate_response, selectedProvider, hp, hcl, hg, ht]
        · rcases hsc : scanCandidates cands with _ | t <;>
            simp [generate_response, selectedProvider, hp, hcl, hg, ht, hsc]

/-- Claim C1: whenever the selected provider call fails in any way
(unresolvable credential, transport exception, non-200 status, malformed
or empty body, missing or blank text field), `generate_response` returns
the configured default fallback string; being a total function, it
propagates no exception. -/
theorem c1_failure_fallback (prompt : String) (cfg : Config) (w : AiWorld)
    (c : AiCache) (h : providerFailure (selectedProvider cfg) w c) :
    (generate_response prompt cfg w c).1 = cfg.default_response :=
  generate_response_default_of_failure prompt cfg w c h

theorem c1_failure_fallback_witness :
    (generate_response "hello"
        ⟨"fallback", "openrouter", "gemini-2.5-pro", "m"⟩
        ⟨some "KEY", none, .transportError, none, none, none, false, .raises⟩
        AiCache.initial).1 = "fallback" :=
  c1_failure_fallback "hello"
    ⟨"fallback", "openrouter", "gemini-2.5-pro", "m"⟩
    ⟨some "KEY", none, .transportError, none, none, none, false, .raises⟩
    AiCache.initial (Or.inr (Or.inl rfl))

/-- Claim C2: each call invokes at most one provider call, always the one
selected from `default_provider` (the `openrouter` branch exactly when the
normalized name is `"openrouter"`, the Gemini branch otherwise), and on
that provider's failure the fallback string is returned without the other
provider ever being attempted — no retry, no cross-provider chain. -/
theorem c2_single_provider (prompt : String) (cfg : Config) (w : AiWorld)
    (c : AiCache) :
    ((generate_response prompt cfg w c).2.2).length ≤ 1 ∧
    (∀ q ∈ (generate_response prompt cfg w c).2.2,
      q = selectedProvider cfg) ∧
    (providerFailure (selectedProvider cfg) w c →
      (generate_response prompt cfg w c).1 = cfg.default_response) := by
  rcases generate_response_trace prompt cfg w c with ht | ht <;>
    rw [ht] <;>
    exact ⟨by simp, by simp,
      fun h => generate_response_default_of_failure prompt cfg w c h⟩

theorem c2_single_provider_witness :
    ((generate_response "hi"
        ⟨"oops", "gemini", "gemini-2.5-pro", "m"⟩
        ⟨none, none, .transportError, some "GKEY", none, none, false, .raises⟩
        AiCache.initial).2.2).length ≤ 1 ∧
    (generate_response "hi"
        ⟨"oops", "gemini", "gemini-2.5-pro", "m"⟩
        ⟨none, none, .transportError, some "GKEY", none, none, false, .raises⟩
        AiCache.initial).1 = "oops" :=
  ⟨(c2_single_provider "hi" ⟨"oops", "gemini", "gemini-2.5-pro", "m"⟩
      ⟨none, none, .transportError, some "GKEY", none, none, false, .raises⟩
      AiCache.initial).1,
   (c2_single_provider "hi" ⟨"oops", "gemini", "gemini-2.5-pro", "m"⟩
      ⟨none, none, .transportError, some "GKEY", none, none, false, .raises⟩
      AiCache.initial).2.2 (Or.inr (Or.inl rfl))⟩

/-! ## Claim C8 -/

/-- A resolved OpenRouter key ends up in the module cache. -/
theorem resolve_openrouter_caches (w : AiWorld) (c : AiCache) (k : String)
    (h : (resolve_openrouter_api_key w c).1 = some k) :
    ((resolve_openrouter_api_key w c).2).orKey = some k := by
  rcases hc : c.orKey with _ | k0
  · by_cases he : (w.orEnvKey.getD "") ≠ "" ∧ pyStrip (w.orEnvKey.getD "") ≠ ""
    · simp [resolve_openrouter_api_key, hc, he] at h ⊢
      exact h
    · rcases hf : read_single_line_file w.orFileKey with _ | fk
      · simp [resolve_openrouter_api_key, hc, he, hf] at h
      · simp [resolve_openrouter_api_key, hc, he, hf] at h ⊢
        exact h
  · have hres : resolve_openrouter_api_key w c = (some k0, c) := by
      simp [resolve_openrouter_api_key, hc]
    rw [hres] at h
    rw [hres]
    show c.orKey = some k
    rw [hc]
    exact h

/-- A resolved Gemini key ends up in the module cache. -/
theorem resolve_gemini_caches (w : AiWorld) (c : AiCache) (k : String)
    (h : (get_gemini_api_key w c).1 = some k) :
    ((get_gemini_api_key w c).2).gemKey = some k := by
  rcases hc : c.gemKey with _ | k0
  · by_cases he : (gemEnvCombined w) ≠ "" ∧ pyStrip (gemEnvCombined w) ≠ ""
    · simp only [get_gemini_api_key, hc, if_pos he] at h ⊢
      simp at h ⊢
      exact h
    · rcases hf : read_single_line_file w.gemFileKey with _ | fk
      · simp only [get_gemini_api_key, hc, if_neg he, hf] at h
        simp at h
      · simp only [get_gemini_api_key, hc, if_neg he, hf] at h ⊢
        simp at h ⊢
        exact h
  · have hres : get_gemini_api_key w c = (some k0, c) := by
      simp [get_gemini_api_key, hc]
    rw [hres] at h
    rw [hres]
    show c.gemKey = some k
    rw [hc]
    exact h

/-- Claim C8, as stated, is false: a non-empty but whitespace-only
environment variable is treated as absent (the dotfile wins), and the
cached/returned value is the *stripped* environment value, not the raw
one. -/
theorem c8_counterexample :
    (resolve_openrouter_api_key
        ⟨some " ", some "filekey", .transportError, none, none, none, false,
          .raises⟩ AiCache.initial).1 = some "filekey" ∧
    (" " : String) ≠ "" ∧ ("filekey" : String) ≠ "" ∧
    (some "filekey" : Option String) ≠ some " " ∧
    (resolve_openrouter_api_key
        ⟨some " k ", some "f", .transportError, none, none, none, false,
          .raises⟩ AiCache.initial).1 = some "k" ∧
    (some "k" : Option String) ≠ some " k " := by decide

/-- Claim C8 (amended): with an empty cache, resolution returns the
stripped environment value when the environment variable is non-blank
(non-empty after stripping), and falls back to the dotfile's stripped
single-line content when the environment variable is absent, empty or
whitespace-only; a cached key short-circuits every subsequent call, which
returns the cached value unchanged for any state of the environment and
file.  The same holds for the Gemini resolver with its
`GEMINI_API_KEY or GOOGLE_API_KEY` alias pair. -/
theorem c8_credential_resolution (w wB : AiWorld) (c : AiCache) :
    (c.orKey = none → pyStrip (w.orEnvKey.getD "") ≠ "" →
      resolve_openrouter_api_key w c =
        (some (pyStrip (w.orEnvKey.getD "")),
          { c with orKey := some (pyStrip (w.orEnvKey.getD "")) })) ∧
    (c.orKey = none → pyStrip (w.orEnvKey.getD "") = "" →
      (resolve_openrouter_api_key w c).1 = read_single_line_file w.orFileKey) ∧
    (∀ k, c.orKey = some k → resolve_openrouter_api_key wB c = (some k, c)) ∧
    (∀ k, (resolve_openrouter_api_key w c).1 = some k →
      resolve_openrouter_api_key wB (resolve_openrouter_api_key w c).2 =
        (some k, (resolve_openrouter_api_key w c).2)) ∧
    (c.gemKey = none → pyStrip (gemEnvCombined w) ≠ "" →
      get_gemini_api_key w c =
        (some (pyStrip (gemEnvCombined w)),
          { c with gemKey := some (pyStrip (gemEnvCombined w)) })) ∧
    (c.gemKey = none → pyStrip (gemEnvCombined w) = "" →
      (get_gemini_api_key w c).1 = read_single_line_file w.gemFileKey) ∧
    (∀ k, c.gemKey = some k → get_gemini_api_key wB c = (some k, c)) ∧
    (∀ k, (get_gemini_api_key w c).1 = some k →
      get_gemini_api_key wB (get_gemini_api_key w c).2 =
        (some k, (get_gemini_api_key w c).2)) := by
  refine ⟨?_, ?_, ?_, ?_, ?_, ?_, ?_, ?_⟩
  · intro hc hstrip
    have he : (w.orEnvKey.getD "") ≠ "" := by
      intro hemp
      exact hstrip (by rw [hemp]; rfl)
    simp [resolve_openrouter_api_key, hc, he, hstrip]
  · intro hc hstrip
    have hcond : ¬ ((w.orEnvKey.getD "") ≠ "" ∧ pyStrip (w.orEnvKey.getD "") ≠ "") := by
      rintro ⟨-, h2⟩
      exact h2 hstrip
    rcases hf : read_single_line_file w.orFileKey with _ | fk <;>
      simp [resolve_openrouter_api_key, hc, hcond, hf]
  · intro k hc
    simp [resolve_openrouter_api_key, hc]
  · intro k hres
    have hcache := resolve_openrouter_caches w c k hres
    generalize (resolve_openrouter_api_key w c).2 = c2 at hcache ⊢
    simp [resolve_openrouter_api_key, hcache]
  · intro hc hstrip
    have he : gemEnvCombined w ≠ "" := by
      intro hemp
      exact hstrip (by rw [hemp]; rfl)
    simp [get_gemini_api_key, hc, he, hstrip]
  · intro hc hstrip
    have hcond : ¬ (gemEnvCombined w ≠ "" ∧ pyStrip (gemEnvCombined w) ≠ "") := by
      rintro ⟨-, h2⟩
      exact h2 hstrip
    rcases hf : read_single_line_file w.gemFileKey with _ | fk <;>
      simp [get_gemini_api_key, hc, hcond, hf]
  · intro k hc
    simp [get_gemini_api_key, hc]
  · intro k hres
    have hcache := resolve_gemini_caches w c k hres
    generalize (get_gemini_api_key w c).2 = c2 at hcache ⊢
    simp [get_gemini_api_key, hcache]

theorem c8_credential_resolution_witness :
    resolve_openrouter_api_key
        ⟨some " envkey ", some "filekey", .transportError, none, none, none,
          false, .raises⟩ AiCache.initial =
      (some "envkey", { AiCache.initial with orKey := some "envkey" }) ∧
    (resolve_openrouter_api_key
        ⟨none, some "filekey", .transportError, none, none, none, false,
          .raises⟩ AiCache.initial).1 = some "filekey" ∧
    resolve_openrouter_api_key
        ⟨none, none, .transportError, none, none, none, false, .raises⟩
        ⟨some "cached", none, false⟩ =
      (some "cached", ⟨some "cached", none, false⟩) ∧
    get_gemini_api_key
        ⟨none, none, .transportError, none, some " gkey ", some "gfile",
          false, .raises⟩ AiCache.initial =
      (some "gkey", { AiCache.initial with gemKey := some "gkey" }) ∧
    (get_gemini_api_key
        ⟨none, none, .transportError, some " ", none, some "gfile", false,
          .raises⟩ AiCache.initial).1 = some "gfile" ∧
    get_gemini_api_key
        ⟨none, none, .transportError, none, none, none, false, .raises⟩
        ⟨none, some "gcached", false⟩ =
      (some "gcached", ⟨none, some "gcached", false⟩) :=
  ⟨by
    have h := (c8_credential_resolution
      ⟨some " envkey ", some "filekey", .transportError, none, none, none,
        false, .raises⟩
      ⟨some " envkey ", some "filekey", .transportError, none, none, none,
        false, .raises⟩ AiCache.initial).1 rfl (by decide)
    simpa using h,
   by
    have h := (c8_credential_resolution
      ⟨none, some "filekey", .transportError, none, none, none, false,
        .raises⟩
      ⟨none, some "filekey", .transportError, none, none, none, false,
        .raises⟩ AiCache.initial).2.1 rfl (by decide)
    simpa using h,
   (c8_credential_resolution
      ⟨none, none, .transportError, none, none, none, false, .raises⟩
      ⟨none, none, .transportError, none, none, none, false, .raises⟩
      ⟨some "cached", none, false⟩).2.2.1 "cached" rfl,
   by
    have h := (c8_credential_resolution
      ⟨none, none, .transportError, none, some " gkey ", some "gfile",
        false, .raises⟩
      ⟨none, none, .transportError, none, some " gkey ", some "gfile",
        false, .raises⟩ AiCache.initial).2.2.2.2.1 rfl (by decide)
    simpa using h,
   by
    have h := (c8_credential_resolution
      ⟨none, none, .transportError, some " ", none, some "gfile", false,
        .raises⟩
      ⟨none, none, .transportError, some " ", none, some "gfile", false,
        .raises⟩ AiCache.initial).2.2.2.2.2.1 rfl (by decide)
    simpa using h,
   (c8_credential_resolution
      ⟨none, none, .transportError, none, none, none, false, .raises⟩
      ⟨none, none, .transportError, none, none, none, false, .raises⟩
      ⟨none, some "gcached", false⟩).2.2.2.2.2.2.1 "gcached" rfl⟩

/-! ## Claim C9 -/

/-- Claim C9: `chat` on a pair with no record still returns
`(user_id, response)` with the provider's reply (or fallback) for the
prompt built from the empty transcript, while the store is left entirely
unchanged — no record is created, and a subsequent read still returns the
empty string. -/
theorem c9_chat_absent_pair (message uid cu : String) (cfg : Config)
    (w : AiWorld) (c : AiCache) (dt : String) (ts : Int) (db : DB)
    (h : is_user_id_in_db cu uid db = false) :
    (chat message uid cu cfg w c dt ts db).1.1 = uid ∧
    (chat message uid cu cfg w c dt ts db).1.2 =
      (generate_response (" User said: \"" ++ message ++ "\" Waifu said: \"")
        cfg w c).1 ∧
    (chat message uid cu cfg w c dt ts db).2.1 = db ∧
    get_old_dialog cu uid (chat message uid cu cfg w c dt ts db).2.1 = "" ∧
    is_user_id_in_db cu uid (chat message uid cu cfg w c dt ts db).2.1
      = false := by
  have hold := get_old_dialog_of_absent cu uid db h
  refine ⟨rfl, ?_, ?_, ?_, ?_⟩
  · show (generate_response
        (get_old_dialog cu uid db ++ " User said: \"" ++ message ++
          "\" Waifu said: \"") cfg w c).1 = _
    rw [hold]
    rfl
  · show update_user_dialog cu uid _ dt ts db = db
    exact update_user_dialog_of_absent cu uid _ dt ts db h
  · show get_old_dialog cu uid (update_user_dialog cu uid _ dt ts db) = ""
    rw [update_user_dialog_of_absent cu uid _ dt ts db h]
    exact hold
  · show is_user_id_in_db cu uid (update_user_dialog cu uid _ dt ts db)
      = false
    rw [update_user_dialog_of_absent cu uid _ dt ts db h]
    exact h

theorem c9_chat_absent_pair_witness :
    (chat "yo" "u1" "alice" ⟨"fb", "openrouter", "g", "m"⟩
        ⟨none, none, .transportError, none, none, none, false, .raises⟩
        AiCache.initial "2024-01-01 00:00:00" 7 []).1.1 = "u1" ∧
    (chat "yo" "u1" "alice" ⟨"fb", "openrouter", "g", "m"⟩
        ⟨none, none, .transportError, none, none, none, false, .raises⟩
        AiCache.initial "2024-01-01 00:00:00" 7 []).1.2 =
      (generate_response (" User said: \"" ++ "yo" ++ "\" Waifu said: \"")
        ⟨"fb", "openrouter", "g", "m"⟩
        ⟨none, none, .transportError, none, none, none, false, .raises⟩
        AiCache.initial).1 ∧
    (chat "yo" "u1" "alice" ⟨"fb", "openrouter", "g", "m"⟩
        ⟨none, none, .transportError, none, none, none, false, .raises⟩
        AiCache.initial "2024-01-01 00:00:00" 7 []).2.1 = [] :=
  have hfull := c9_chat_absent_pair "yo" "u1" "alice"
    ⟨"fb", "openrouter", "g", "m"⟩
    ⟨none, none, .transportError, none, none, none, false, .raises⟩
    AiCache.initial "2024-01-01 00:00:00" 7 [] (by decide)
  ⟨hfull.1, hfull.2.1, hfull.2.2.1⟩
